import Mathlib

/-!
Verification of the CanvasGrid core: cell geometry (MouseInteractions /
ColorSampler), the `within` color comparison, the two-tier `sampleCell`
strategy, the tooltip-wait loop (TooltipDetector.waitForTooltip) and the
GridScanner orchestration (`scanAllCellsForTooltips`, `hasAnyTooltips`,
`selectCellsAndExtractText`).

Numbers that are JavaScript `number`s are modelled as `ℚ` (all the
arithmetic the code performs on them is exact on rationals);
integer cell indices are `ℕ` (iteration) or `ℤ` (caller-supplied,
possibly negative, region corners).  External collaborators (the
page-automation driver, the DOM) are modelled as explicit environment
records supplying the outcome of each awaited call; a `none`/`false`
outcome models the corresponding call throwing, mirroring how each
`try`/`catch` in the source treats them.
-/

namespace CanvasGrid

/-- Grid dimensions, `{cols, rows}` (GridOverlay.ts `Grid`). -/
structure Grid where
  cols : ℕ
  rows : ℕ
deriving DecidableEq, Repr

/-- On-screen bounding box `{x, y, width, height}` in page pixels. -/
structure Box where
  x : ℚ
  y : ℚ
  width : ℚ
  height : ℚ
deriving DecidableEq, Repr

/-- A page-pixel point. -/
structure Point where
  x : ℚ
  y : ℚ
deriving DecidableEq, Repr

/-- A page-pixel rectangle (the screenshot `clip`). -/
structure Rect where
  x : ℚ
  y : ℚ
  width : ℚ
  height : ℚ
deriving DecidableEq, Repr

/-- `MouseInteractions.getCellCenter`: `boundingBox()` may be null (the
element is hidden), in which case the source throws `no canvas bbox`;
otherwise
`x = box.x + (box.width / grid.cols) * (col + 0.5)` and analogously `y`. -/
def getCellCenter (box? : Option Box) (grid : Grid) (col row : ℕ) : Option Point :=
  match box? with
  | none => none
  | some box =>
      some { x := box.x + (box.width / (grid.cols : ℚ)) * ((col : ℚ) + 1/2)
             y := box.y + (box.height / (grid.rows : ℚ)) * ((row : ℚ) + 1/2) }

/-- One RGBA color sample: the source's 4-tuple `[r, g, b, a]`. -/
structure RGBA where
  r : ℚ
  g : ℚ
  b : ℚ
  a : ℚ
deriving DecidableEq, Repr

/-- The 4-tuple viewed as the array the source iterates over. -/
def RGBA.toList (c : RGBA) : List ℚ := [c.r, c.g, c.b, c.a]

/-- `ColorSampler.within(actual, expected, tol = 12)`:
`actual.every((v, i) => Math.abs(v - expected[i]) <= tol)`. -/
def within (actual expected : RGBA) (tol : ℚ := 12) : Bool :=
  (actual.toList.zip expected.toList).all (fun p => decide (|p.1 - p.2| ≤ tol))

/-- `ColorSampler.sampleCell` fallback clip (part_001 lines 66-75):
`cellW = box.width / grid.cols`, `cellH = box.height / grid.rows`,
`clip = { x: box.x + cellW * col, y: box.y + cellH * row,
width: Math.max(2, Math.floor(cellW)), height: Math.max(2, Math.floor(cellH)) }`. -/
def cellClip (box : Box) (grid : Grid) (col row : ℕ) : Rect :=
  let cellW : ℚ := box.width / (grid.cols : ℚ)
  let cellH : ℚ := box.height / (grid.rows : ℚ)
  { x := box.x + cellW * (col : ℚ)
    y := box.y + cellH * (row : ℚ)
    width := max 2 ((⌊cellW⌋ : ℚ))
    height := max 2 ((⌊cellH⌋ : ℚ)) }

/-- Sum of the widths of the `cols` fallback rectangles of one row. -/
def rowWidthsSum (box : Box) (grid : Grid) (row : ℕ) : ℚ :=
  ((List.range grid.cols).map (fun col => (cellClip box grid col row).width)).sum

/-- The tiling property claimed for the capture-fallback rectangles: row
widths sum to the box width within rounding (the sum lies in
`(width - cols, width]`), rectangles of the same row (respectively
column) do not overlap, and every rectangle lies inside the box. -/
def TilingOK (box : Box) (grid : Grid) : Prop :=
  (∀ row, row < grid.rows →
      box.width - (grid.cols : ℚ) < rowWidthsSum box grid row ∧
      rowWidthsSum box grid row ≤ box.width) ∧
  (∀ row c1 c2, c1 < c2 → c2 < grid.cols →
      (cellClip box grid c1 row).x + (cellClip box grid c1 row).width ≤
        (cellClip box grid c2 row).x) ∧
  (∀ col r1 r2, r1 < r2 → r2 < grid.rows →
      (cellClip box grid col r1).y + (cellClip box grid col r1).height ≤
        (cellClip box grid col r2).y) ∧
  (∀ col row, col < grid.cols → row < grid.rows →
      box.x ≤ (cellClip box grid col row).x ∧
      (cellClip box grid col row).x + (cellClip box grid col row).width ≤
        box.x + box.width ∧
      box.y ≤ (cellClip box grid col row).y ∧
      (cellClip box grid col row).y + (cellClip box grid col row).height ≤
        box.y + box.height)

/-- Helper: sum of a constant list produced by mapping over `range n`. -/
theorem sum_map_const (n : ℕ) (k : ℚ) :
    ((List.range n).map (fun _ : ℕ => k)).sum = (n : ℚ) * k := by
  induction n with
  | zero => simp
  | succ m ih =>
      rw [List.range_succ]
      simp only [List.map_append, List.sum_append, List.map_cons, List.map_nil,
        List.sum_cons, List.sum_nil, ih]
      push_cast
      ring

/-- Helper: one-axis bounds for the fallback rectangles when each cell is
at least `2` pixels wide on that axis (`2 ≤ w / n`, which is exactly when
the `Math.max(2, Math.floor(w / n))` clamp is inactive). -/
theorem axis_cell_bounds (w : ℚ) (n : ℕ) (hn : 1 ≤ n)
    (h2 : 2 * (n : ℚ) ≤ w) :
    (∀ i j : ℕ, i < j →
      w / (n : ℚ) * (i : ℚ) + max 2 ((⌊w / (n : ℚ)⌋ : ℚ)) ≤ w / (n : ℚ) * (j : ℚ)) ∧
    (∀ i : ℕ, i < n →
      0 ≤ w / (n : ℚ) * (i : ℚ) ∧
      w / (n : ℚ) * (i : ℚ) + max 2 ((⌊w / (n : ℚ)⌋ : ℚ)) ≤ w) ∧
    ((n : ℚ) * max 2 ((⌊w / (n : ℚ)⌋ : ℚ)) ≤ w ∧
      w - (n : ℚ) < (n : ℚ) * max 2 ((⌊w / (n : ℚ)⌋ : ℚ))) := by
  have hnq : (0 : ℚ) < (n : ℚ) := by exact_mod_cast hn
  have hu2 : (2 : ℚ) ≤ w / (n : ℚ) := (le_div_iff₀ hnq).mpr (by linarith)
  have h2f : (2 : ℚ) ≤ ((⌊w / (n : ℚ)⌋ : ℚ)) := by
    exact_mod_cast Int.le_floor.mpr (by exact_mod_cast hu2)
  have hfl : ((⌊w / (n : ℚ)⌋ : ℚ)) ≤ w / (n : ℚ) := Int.floor_le _
  have hlow : w / (n : ℚ) - 1 < ((⌊w / (n : ℚ)⌋ : ℚ)) := Int.sub_one_lt_floor _
  have hmax : max (2 : ℚ) ((⌊w / (n : ℚ)⌋ : ℚ)) = ((⌊w / (n : ℚ)⌋ : ℚ)) :=
    max_eq_right h2f
  have hupos : (0 : ℚ) < w / (n : ℚ) := lt_of_lt_of_le (by norm_num) hu2
  have hmul : w / (n : ℚ) * (n : ℚ) = w := div_mul_cancel₀ w (ne_of_gt hnq)
  rw [hmax]
  refine ⟨?_, ?_, ?_, ?_⟩
  · intro i j hij
    have hij' : (i : ℚ) + 1 ≤ (j : ℚ) := by exact_mod_cast hij
    nlinarith [mul_le_mul_of_nonneg_left hij' hupos.le]
  · intro i hi
    have hi0 : (0 : ℚ) ≤ (i : ℚ) := Nat.cast_nonneg i
    have hi1 : (i : ℚ) + 1 ≤ (n : ℚ) := by exact_mod_cast hi
    refine ⟨mul_nonneg hupos.le hi0, ?_⟩
    nlinarith [mul_le_mul_of_nonneg_left hi1 hupos.le]
  · nlinarith [mul_le_mul_of_nonneg_left hfl hnq.le]
  · nlinarith [mul_le_mul_of_nonneg_left hlow.le hnq.le, hlow, hnq]

/-- C2 counterexample: for box `{x:0, y:0, width:4, height:4}` and grid
`{cols:4, rows:1}` the cell width is `1`, so the `Math.max(2, ...)` clamp
widens every rectangle to `2`: rectangle `(0,0)` overlaps rectangle
`(1,0)`, rectangle `(3,0)` protrudes past the right edge of the box, and
the four widths sum to `8`, not `4`; in particular the claimed tiling
invariant fails for this `cols, rows ≥ 1` input. -/
theorem cellClip_tiling_counterexample :
    (cellClip { x := 0, y := 0, width := 4, height := 4 } { cols := 4, rows := 1 } 1 0).x <
      (cellClip { x := 0, y := 0, width := 4, height := 4 } { cols := 4, rows := 1 } 0 0).x +
      (cellClip { x := 0, y := 0, width := 4, height := 4 } { cols := 4, rows := 1 } 0 0).width ∧
    (0 : ℚ) + 4 <
      (cellClip { x := 0, y := 0, width := 4, height := 4 } { cols := 4, rows := 1 } 3 0).x +
      (cellClip { x := 0, y := 0, width := 4, height := 4 } { cols := 4, rows := 1 } 3 0).width ∧
    rowWidthsSum { x := 0, y := 0, width := 4, height := 4 } { cols := 4, rows := 1 } 0 = 8 ∧
    ¬ TilingOK { x := 0, y := 0, width := 4, height := 4 } { cols := 4, rows := 1 } := by
  have h1 : ⌊(4 : ℚ) / ((4 : ℕ) : ℚ)⌋ = 1 := by norm_num
  refine ⟨?_, ?_, ?_, ?_⟩
  · simp only [cellClip]
    norm_num [h1]
  · simp only [cellClip]
    norm_num [h1]
  · simp only [rowWidthsSum, List.range_succ]
    simp only [cellClip]
    norm_num [h1]
  · intro h
    obtain ⟨-, hov, -, -⟩ := h
    have h01 := hov 0 0 1 (by norm_num) (by norm_num)
    simp only [cellClip] at h01
    norm_num [h1] at h01

/-- C2 (amended): the fallback rectangles tile the box whenever every
cell is at least 2 pixels wide and tall (`2 * cols ≤ width` and
`2 * rows ≤ height`), which is exactly when the source's
`Math.max(2, ...)` minimum-size clamp is inactive; under that proviso row
widths sum to the box width within rounding, rectangles of the same row
or column do not overlap, and every rectangle lies inside the box.
Without the proviso the clamp makes rectangles overlap and protrude. -/
theorem cellClip_tiling_amended (box : Box) (grid : Grid)
    (hc : 1 ≤ grid.cols) (hr : 1 ≤ grid.rows)
    (hw : 2 * (grid.cols : ℚ) ≤ box.width)
    (hh : 2 * (grid.rows : ℚ) ≤ box.height) :
    TilingOK box grid := by
  obtain ⟨hxadj, hxin, hxsum1, hxsum2⟩ := axis_cell_bounds box.width grid.cols hc hw
  obtain ⟨hyadj, hyin, hysum1, hysum2⟩ := axis_cell_bounds box.height grid.rows hr hh
  refine ⟨?_, ?_, ?_, ?_⟩
  · intro row _
    have hconst : rowWidthsSum box grid row =
        (grid.cols : ℚ) * max 2 ((⌊box.width / (grid.cols : ℚ)⌋ : ℚ)) := by
      simp only [rowWidthsSum, cellClip]
      exact sum_map_const _ _
    rw [hconst]
    exact ⟨hxsum2, hxsum1⟩
  · intro row c1 c2 h12 _
    have h := hxadj c1 c2 h12
    simp only [cellClip]
    linarith
  · intro col r1 r2 h12 _
    have h := hyadj r1 r2 h12
    simp only [cellClip]
    linarith
  · intro col row hcol hrow
    have h1 := hxin col hcol
    have h2 := hyin row hrow
    simp only [cellClip]
    exact ⟨by linarith [h1.1], by linarith [h1.2], by linarith [h2.1], by linarith [h2.2]⟩

/-- C2 witness: box `{x:10, y:10, width:200, height:150}` with grid
`{cols:4, rows:3}` satisfies the amended hypotheses and hence tiles. -/
theorem cellClip_tiling_amended_witness :
    ((1 : ℕ) ≤ 4 ∧ (1 : ℕ) ≤ 3 ∧ 2 * ((4 : ℕ) : ℚ) ≤ 200 ∧ 2 * ((3 : ℕ) : ℚ) ≤ 150) ∧
    TilingOK { x := 10, y := 10, width := 200, height := 150 } { cols := 4, rows := 3 } :=
  ⟨⟨by norm_num, by norm_num, by norm_num, by norm_num⟩,
    cellClip_tiling_amended
      { x := 10, y := 10, width := 200, height := 150 } { cols := 4, rows := 3 }
      (by norm_num) (by norm_num) (by norm_num) (by norm_num)⟩

/-- The failures `ColorSampler.sampleCell` can raise: `canvas not found`
(the locator resolves to no live element handle), `no canvas bbox` (tier 1
soft-failed and no bounding box is available for the tier-2 clip), or a
tier-2 capture failure (`page.screenshot` or the decode raising). -/
inductive SampleError where
  | canvasNotFound
  | noCanvasBBox
  | captureFailed
deriving DecidableEq, Repr

/-- Environment for one `sampleCell` call: the outcome of each awaited
collaborator call.  `directRead` is the result of the tier-1
`page.evaluate(...)` with its `.catch(() => null)` already applied, so a
throwing read (security restriction, no context) is `none`, never an
exception.  `capture` is the tier-2 screenshot-decode-average pipeline on
a given clip; `none` models it throwing. -/
structure SampleEnv where
  handleResolved : Bool
  directRead : Option RGBA
  boundingBox : Option Box
  capture : Rect → Option RGBA

/-- `ColorSampler.sampleCell(col, row)` (part_001 lines 18-90): resolve
the handle (throw `canvas not found` on `null`), try the tier-1 direct
read, and when it yields `null` fall back to the tier-2 screenshot of
`cellClip` of the bounding box (throw `no canvas bbox` when that box is
unavailable). -/
def sampleCell (env : SampleEnv) (grid : Grid) (col row : ℕ) :
    Except SampleError RGBA :=
  if !env.handleResolved then .error .canvasNotFound
  else
    match env.directRead with
    | some rgba => .ok rgba
    | none =>
        match env.boundingBox with
        | none => .error .noCanvasBBox
        | some box =>
            match env.capture (cellClip box grid col row) with
            | none => .error .captureFailed
            | some rgba => .ok rgba

/-- C3: `sampleCell` fails iff the canvas handle cannot be resolved
(raised as `canvas not found` before any read is attempted, whatever the
other outcomes), or tier 1 soft-failed and either no bounding box is
available or the tier-2 capture itself fails; a tier-1 failure with a
successful tier-2 capture is never surfaced: the call returns the tier-2
color. -/
theorem sampleCell_failure_spec (env : SampleEnv) (grid : Grid) (col row : ℕ) :
    ((∃ e, sampleCell env grid col row = .error e) ↔
      (env.handleResolved = false ∨
        (env.directRead = none ∧
          (env.boundingBox = none ∨
            (∃ box, env.boundingBox = some box ∧
              env.capture (cellClip box grid col row) = none))))) ∧
    (env.handleResolved = false →
      sampleCell env grid col row = .error .canvasNotFound) ∧
    (∀ box rgba, env.handleResolved = true → env.directRead = none →
      env.boundingBox = some box →
      env.capture (cellClip box grid col row) = some rgba →
      sampleCell env grid col row = .ok rgba) := by
  obtain ⟨h, d, b, cap⟩ := env
  refine ⟨?_, ?_, ?_⟩
  · cases h with
    | false => simp [sampleCell]
    | true =>
        cases d with
        | some rgba => simp [sampleCell]
        | none =>
            cases b with
            | none => simp [sampleCell]
            | some box =>
                cases hcap : cap (cellClip box grid col row) with
                | none => simp [sampleCell, hcap]
                | some rgba => simp [sampleCell, hcap]
  · intro hf
    simp only at hf
    simp [sampleCell, hf]
  · intro box rgba ht hd hb hcap
    simp only at ht hd hb hcap
    simp [sampleCell, ht, hd, hb, hcap]

/-- C8: `getCellCenter` computes
`x = box.x + (box.width/grid.cols)*(col+0.5)` and
`y = box.y + (box.height/grid.rows)*(row+0.5)` whenever a bounding box is
available; in particular for `grid = {cols:4, rows:3}`,
`box = {x:10, y:10, width:200, height:150}`, cell `{col:1, row:2}` it
yields exactly `{x:85, y:135}`. -/
theorem getCellCenter_spec (box : Box) (grid : Grid) (col row : ℕ) :
    getCellCenter (some box) grid col row =
      some { x := box.x + (box.width / (grid.cols : ℚ)) * ((col : ℚ) + 1/2)
             y := box.y + (box.height / (grid.rows : ℚ)) * ((row : ℚ) + 1/2) } ∧
    getCellCenter (some { x := 10, y := 10, width := 200, height := 150 })
        { cols := 4, rows := 3 } 1 2 =
      some { x := 85, y := 135 } := by
  refine ⟨rfl, ?_⟩
  simp only [getCellCenter]
  norm_num

/-- C4: `within(a, b, t)` is true iff all four channels differ by at most
`t` in absolute value; hence `within(c, c, t)` holds for every `t ≥ 0`
(including `t = 0`), and for colors differing by exactly `d` in every
channel, `within(a, b, t)` is true iff `t ≥ d`. -/
theorem within_spec (x y c : RGBA) (t d : ℚ) :
    (within x y t = true ↔
      (|x.r - y.r| ≤ t ∧ |x.g - y.g| ≤ t ∧ |x.b - y.b| ≤ t ∧ |x.a - y.a| ≤ t)) ∧
    (0 ≤ t → within c c t = true) ∧
    ((|x.r - y.r| = d ∧ |x.g - y.g| = d ∧ |x.b - y.b| = d ∧ |x.a - y.a| = d) →
      (within x y t = true ↔ d ≤ t)) := by
  have hchar : within x y t = true ↔
      (|x.r - y.r| ≤ t ∧ |x.g - y.g| ≤ t ∧ |x.b - y.b| ≤ t ∧ |x.a - y.a| ≤ t) := by
    simp [within, RGBA.toList, List.zip, List.all]
  refine ⟨hchar, ?_, ?_⟩
  · intro ht
    have : within c c t = true ↔
        (|c.r - c.r| ≤ t ∧ |c.g - c.g| ≤ t ∧ |c.b - c.b| ≤ t ∧ |c.a - c.a| ≤ t) := by
      simp [within, RGBA.toList, List.zip, List.all]
    rw [this]
    simp [ht]
  · rintro ⟨h1, h2, h3, h4⟩
    rw [hchar, h1, h2, h3, h4]
    tauto

/-- JavaScript `s || undefined` on an optional string: the empty string
is falsy and becomes `undefined`. -/
def orUndefined (s : Option String) : Option String :=
  match s with
  | some str => if str = "" then none else some str
  | none => none

/-- One entry of `TooltipDetector.getVisibleTooltips()`: matching
selector, index among same-selector matches, text content and markup. -/
structure TooltipObs where
  selector : String
  index : ℕ
  text : Option String
  html : String
deriving DecidableEq, Repr

/-- Options of `scanAllCellsForTooltips` with the source's defaults
(`hoverDelay = 200`, `detectionSensitivity = 10`,
`skipEmptyCells = true`); the progress callback is fire-and-forget and
does not influence the results. -/
structure ScanOptions where
  hoverDelay : ℚ := 200
  detectionSensitivity : ℚ := 10
  skipEmptyCells : Bool := true

/-- Environment of one scan: per cell, whether
`mouseInteractions.hoverCell` throws, and the outcome of
`tooltipDetector.getVisibleTooltips()` after hovering that cell (`none`
models the detection call throwing). -/
structure ScanEnv where
  hoverThrows : ℕ → ℕ → Bool
  visibleTooltips : ℕ → ℕ → Option (List TooltipObs)

/-- The source's `baselines` map: it is created empty and — baseline
collection being `temporarily removed` — never populated, so every lookup
yields `undefined`. -/
def scanBaselines (_col _row : ℕ) : Option Unit := none

/-- One per-cell result of the scan.  `canvasChanges` and `hovered` are
never assigned anywhere in the source and are omitted. -/
structure CellResult where
  col : ℕ
  row : ℕ
  hasTooltip : Bool
  tooltipText : Option String := none
  baseline : Option Unit := none
  colorTestingDisabled : Option Bool := none
deriving DecidableEq, Repr

/-- The body of the per-cell `try`/`catch` (GridScanner.ts lines
119-164): the result starts as `{col, row, hasTooltip: false, baseline}`;
if hovering or tooltip detection throws, the exception is swallowed and
the initial result stands; otherwise a non-empty tooltip list sets
`hasTooltip` and the first tooltip's text, and `colorTestingDisabled` is
noted on the cell. -/
def scanCellResult (env : ScanEnv) (col row : ℕ) : CellResult :=
  let start : CellResult :=
    { col := col, row := row, hasTooltip := false, baseline := scanBaselines col row }
  if env.hoverThrows col row then start
  else
    match env.visibleTooltips col row with
    | none => start
    | some ts =>
        let withTip :=
          match ts with
          | [] => start
          | t :: _ => { start with hasTooltip := true, tooltipText := orUndefined t.text }
        { withTip with colorTestingDisabled := some true }

/-- Scan loop state: the append-only results list, the `processed`
counter, and the trace of cells actually hovered. -/
structure ScanState where
  results : List CellResult
  processed : ℕ
  visited : List (ℕ × ℕ)
deriving DecidableEq, Repr

/-- One iteration of the nested scan loop at cell `(col, row)`: with no
baseline and `skipEmptyCells` set the cell is skipped (only `processed`
advances); otherwise the cell is hovered and its result appended. -/
def scanStep (env : ScanEnv) (opts : ScanOptions) (st : ScanState)
    (cell : ℕ × ℕ) : ScanState :=
  if (scanBaselines cell.1 cell.2).isNone && opts.skipEmptyCells then
    { st with processed := st.processed + 1 }
  else
    { results := st.results ++ [scanCellResult env cell.1 cell.2]
      processed := st.processed + 1
      visited := st.visited ++ [(cell.1, cell.2)] }

/-- The cell sequence of the scan loops: `row` outer over
`0 ≤ row < rows`, `col` inner over `0 ≤ col < cols`. -/
def rowMajorCells (grid : Grid) : List (ℕ × ℕ) :=
  (List.range grid.rows).flatMap (fun row => (List.range grid.cols).map (fun col => (col, row)))

/-- The `summary` object of the scan report. -/
structure ScanSummary where
  hasAnyTooltips : Bool
  tooltipCells : List (ℕ × ℕ)
  domTooltips : ℕ
  canvasTooltips : ℕ
deriving DecidableEq, Repr

/-- The aggregate report returned by `scanAllCellsForTooltips`. -/
structure ScanReport where
  totalCells : ℕ
  cellsWithTooltips : ℕ
  results : List CellResult
  colorTestingDisabled : Bool
  summary : ScanSummary
deriving DecidableEq, Repr

/-- JavaScript truthiness of `r.tooltipText` (a missing or empty string
is falsy). -/
def isTruthyStr (s : Option String) : Bool :=
  match s with
  | none => false
  | some str => str ≠ ""

/-- The report literal of GridScanner.ts lines 182-193, built from the
final results list and `processed` count. -/
def buildReport (processed : ℕ) (results : List CellResult) : ScanReport :=
  { totalCells := processed
    cellsWithTooltips := (results.filter (fun r => r.hasTooltip)).length
    results := results
    colorTestingDisabled := true
    summary :=
      { hasAnyTooltips := results.any (fun r => r.hasTooltip)
        tooltipCells := (results.filter (fun r => r.hasTooltip)).map (fun r => (r.col, r.row))
        domTooltips :=
          (results.filter (fun r => r.hasTooltip && isTruthyStr r.tooltipText)).length
        canvasTooltips := 0 } }

/-- `GridScanner.scanAllCellsForTooltips`: run the row-major nested loop
from the empty state, then build the report.  The second component is the
trace of hovered cells (the scan's visit order). -/
def scanAllCellsForTooltips (env : ScanEnv) (grid : Grid) (opts : ScanOptions) :
    ScanReport × List (ℕ × ℕ) :=
  let st := (rowMajorCells grid).foldl (scanStep env opts)
    { results := [], processed := 0, visited := [] }
  (buildReport st.processed st.results, st.visited)

/-- Helper: with `skipEmptyCells` unset, the loop appends one hovered
result per cell. -/
theorem foldl_scanStep_noskip (env : ScanEnv) (opts : ScanOptions)
    (hskip : opts.skipEmptyCells = false) (l : List (ℕ × ℕ)) (st : ScanState) :
    l.foldl (scanStep env opts) st =
      { results := st.results ++ l.map (fun c => scanCellResult env c.1 c.2)
        processed := st.processed + l.length
        visited := st.visited ++ l } := by
  induction l generalizing st with
  | nil => simp
  | cons c rest ih =>
      rw [List.foldl_cons, ih]
      simp [scanStep, hskip]
      omega

/-- Helper: with `skipEmptyCells` set (the default) every cell is
skipped, because the baselines map is never populated. -/
theorem foldl_scanStep_skip (env : ScanEnv) (opts : ScanOptions)
    (hskip : opts.skipEmptyCells = true) (l : List (ℕ × ℕ)) (st : ScanState) :
    l.foldl (scanStep env opts) st =
      { results := st.results
        processed := st.processed + l.length
        visited := st.visited } := by
  induction l generalizing st with
  | nil => simp
  | cons c rest ih =>
      rw [List.foldl_cons, ih]
      simp [scanStep, hskip, scanBaselines]
      omega

/-- Helper: the row-major cell list enumerates the full grid. -/
theorem mem_rowMajorCells (grid : Grid) (col row : ℕ) :
    (col, row) ∈ rowMajorCells grid ↔ col < grid.cols ∧ row < grid.rows := by
  simp only [rowMajorCells, List.mem_flatMap, List.mem_map, List.mem_range, Prod.mk.injEq]
  constructor
  · rintro ⟨a, ha, b, hb, rfl, rfl⟩
    exact ⟨hb, ha⟩
  · rintro ⟨h1, h2⟩
    exact ⟨row, h2, col, h1, rfl, rfl⟩

/-- Helper: the row-major cell list has one entry per grid cell. -/
theorem length_rowMajorCells (grid : Grid) :
    (rowMajorCells grid).length = grid.rows * grid.cols := by
  have key : ∀ n m : ℕ,
      ((List.range n).flatMap (fun row => (List.range m).map (fun col => (col, row)))).length
        = n * m := by
    intro n m
    induction n with
    | zero => simp
    | succ k ih =>
        rw [List.range_succ]
        simp only [List.flatMap_append, List.length_append, ih, List.flatMap_cons,
          List.flatMap_nil, List.append_nil, List.length_map, List.length_range]
        ring
  exact key grid.rows grid.cols

/-- A page on which every cell shows a DOM tooltip and nothing throws. -/
def alwaysTooltipEnv : ScanEnv :=
  { hoverThrows := fun _ _ => false
    visibleTooltips := fun _ _ =>
      some [{ selector := ".tooltip", index := 0, text := some ("Test tooltip"),
              html := "t" }] }

/-- C1 (code bug evidence): on a 3x2 grid where every cell would show a
tooltip, `scanAllCellsForTooltips` with its default options hovers no
cell at all and returns an empty results list with zero tooltips, because
the `baselines` map is never populated and the default
`skipEmptyCells = true` then skips every cell; the row-major sequence the
scan is documented to visit is `(0,0),(1,0),(2,0),(0,1),(1,1),(2,1)`, and
the scan does visit exactly it once `skipEmptyCells` is disabled. -/
theorem scan_default_options_skips_every_cell :
    (scanAllCellsForTooltips alwaysTooltipEnv { cols := 3, rows := 2 } {}).2 = [] ∧
    (scanAllCellsForTooltips alwaysTooltipEnv { cols := 3, rows := 2 } {}).1.results = [] ∧
    (scanAllCellsForTooltips alwaysTooltipEnv { cols := 3, rows := 2 } {}).1.cellsWithTooltips
      = 0 ∧
    (scanAllCellsForTooltips alwaysTooltipEnv { cols := 3, rows := 2 } {}).1.totalCells = 6 ∧
    (scanAllCellsForTooltips alwaysTooltipEnv { cols := 3, rows := 2 }
        {}).1.summary.hasAnyTooltips = false ∧
    rowMajorCells { cols := 3, rows := 2 }
      = [(0, 0), (1, 0), (2, 0), (0, 1), (1, 1), (2, 1)] ∧
    (scanAllCellsForTooltips alwaysTooltipEnv { cols := 3, rows := 2 }
        { skipEmptyCells := false }).2
      = [(0, 0), (1, 0), (2, 0), (0, 1), (1, 1), (2, 1)] := by
  decide

/-- C5: with the per-cell loop actually reached (`skipEmptyCells` off),
a cell whose hover or tooltip-detection step throws is caught inside the
loop, still appended to the results as a negative result
(`hasTooltip = false`), and the scan continues: every grid cell still
produces a result and the full row-major sequence is visited. -/
theorem scan_per_cell_failure_isolated (env : ScanEnv) (grid : Grid) (col row : ℕ)
    (hc : col < grid.cols) (hr : row < grid.rows)
    (hfail : env.hoverThrows col row = true ∨ env.visibleTooltips col row = none) :
    ({ col := col, row := row, hasTooltip := false } : CellResult) ∈
      (scanAllCellsForTooltips env grid { skipEmptyCells := false }).1.results ∧
    (scanAllCellsForTooltips env grid { skipEmptyCells := false }).1.results.length
      = grid.cols * grid.rows ∧
    (scanAllCellsForTooltips env grid { skipEmptyCells := false }).2
      = rowMajorCells grid := by
  have hexp := foldl_scanStep_noskip env { skipEmptyCells := false } rfl
    (rowMajorCells grid) { results := [], processed := 0, visited := [] }
  have hres : (scanAllCellsForTooltips env grid { skipEmptyCells := false }).1.results
      = (rowMajorCells grid).map (fun c => scanCellResult env c.1 c.2) := by
    rw [scanAllCellsForTooltips, hexp]
    rfl
  have hvis : (scanAllCellsForTooltips env grid { skipEmptyCells := false }).2
      = rowMajorCells grid := by
    rw [scanAllCellsForTooltips, hexp]
    rfl
  have hcell : scanCellResult env col row =
      { col := col, row := row, hasTooltip := false } := by
    rcases hfail with h | h
    · simp [scanCellResult, h, scanBaselines]
    · cases hthrow : env.hoverThrows col row <;>
        simp [scanCellResult, h, hthrow, scanBaselines]
  refine ⟨?_, ?_, hvis⟩
  · rw [hres, ← hcell]
    exact List.mem_map_of_mem _ ((mem_rowMajorCells grid col row).mpr ⟨hc, hr⟩)
  · rw [hres, List.length_map, length_rowMajorCells]
    exact Nat.mul_comm grid.rows grid.cols

/-- An environment whose cell `(1, 0)` fails on hover and which shows no
tooltips anywhere. -/
def failingCellEnv : ScanEnv :=
  { hoverThrows := fun c r => c == 1 && r == 0
    visibleTooltips := fun _ _ => some [] }

/-- C5 witness: the failure-isolation theorem applied to a concrete 2x2
grid whose cell `(1, 0)` throws on hover. -/
theorem scan_per_cell_failure_isolated_witness :
    (1 < 2 ∧ 0 < 2 ∧
      (failingCellEnv.hoverThrows 1 0 = true ∨
        failingCellEnv.visibleTooltips 1 0 = none)) ∧
    (({ col := 1, row := 0, hasTooltip := false } : CellResult) ∈
      (scanAllCellsForTooltips failingCellEnv { cols := 2, rows := 2 }
        { skipEmptyCells := false }).1.results ∧
    (scanAllCellsForTooltips failingCellEnv { cols := 2, rows := 2 }
        { skipEmptyCells := false }).1.results.length = 2 * 2 ∧
    (scanAllCellsForTooltips failingCellEnv { cols := 2, rows := 2 }
        { skipEmptyCells := false }).2
      = rowMajorCells { cols := 2, rows := 2 }) :=
  ⟨⟨by decide, by decide, Or.inl (by decide)⟩,
    scan_per_cell_failure_isolated failingCellEnv { cols := 2, rows := 2 } 1 0
      (by decide) (by decide) (Or.inl (by decide))⟩

/-- Helper: invariants of the report literal, for any results list. -/
theorem buildReport_consistent (p : ℕ) (results : List CellResult) :
    (buildReport p results).cellsWithTooltips =
      ((buildReport p results).results.filter (fun r => r.hasTooltip)).length ∧
    (buildReport p results).summary.tooltipCells.length =
      (buildReport p results).cellsWithTooltips ∧
    ((buildReport p results).summary.hasAnyTooltips = true ↔
      0 < (buildReport p results).cellsWithTooltips) ∧
    (buildReport p results).summary.domTooltips ≤
      (buildReport p results).cellsWithTooltips ∧
    (buildReport p results).summary.canvasTooltips = 0 ∧
    (buildReport p results).colorTestingDisabled = true := by
  refine ⟨rfl, by simp [buildReport], ?_, ?_, rfl, rfl⟩
  · show results.any (fun r => r.hasTooltip) = true ↔
      0 < (results.filter (fun r => r.hasTooltip)).length
    constructor
    · intro h
      obtain ⟨r, hr, hp⟩ := List.any_eq_true.mp h
      exact List.length_pos_of_mem (List.mem_filter.mpr ⟨hr, hp⟩)
    · intro h
      obtain ⟨r, hr⟩ := List.exists_mem_of_length_pos h
      obtain ⟨h1, h2⟩ := List.mem_filter.mp hr
      exact List.any_eq_true.mpr ⟨r, h1, h2⟩
  · show (results.filter (fun r => r.hasTooltip && isTruthyStr r.tooltipText)).length ≤
      (results.filter (fun r => r.hasTooltip)).length
    induction results with
    | nil => simp
    | cons r t ih =>
        cases hp : r.hasTooltip <;> cases hq : isTruthyStr r.tooltipText <;>
          simp [List.filter, hp, hq] <;> omega

/-- C10: every report of `scanAllCellsForTooltips` is internally
consistent: `cellsWithTooltips` counts the results with
`hasTooltip = true` and equals `summary.tooltipCells.length`;
`summary.hasAnyTooltips` holds iff that count is positive;
`summary.domTooltips` never exceeds it; and `summary.canvasTooltips = 0`
and the report-level `colorTestingDisabled = true` always. -/
theorem scan_report_consistent (env : ScanEnv) (grid : Grid) (opts : ScanOptions) :
    (scanAllCellsForTooltips env grid opts).1.cellsWithTooltips =
      ((scanAllCellsForTooltips env grid opts).1.results.filter
        (fun r => r.hasTooltip)).length ∧
    (scanAllCellsForTooltips env grid opts).1.summary.tooltipCells.length =
      (scanAllCellsForTooltips env grid opts).1.cellsWithTooltips ∧
    ((scanAllCellsForTooltips env grid opts).1.summary.hasAnyTooltips = true ↔
      0 < (scanAllCellsForTooltips env grid opts).1.cellsWithTooltips) ∧
    (scanAllCellsForTooltips env grid opts).1.summary.domTooltips ≤
      (scanAllCellsForTooltips env grid opts).1.cellsWithTooltips ∧
    (scanAllCellsForTooltips env grid opts).1.summary.canvasTooltips = 0 ∧
    (scanAllCellsForTooltips env grid opts).1.colorTestingDisabled = true := by
  rw [scanAllCellsForTooltips]
  exact buildReport_consistent _ _

/-- The normalized selection region of `selectCellsAndExtractText`. -/
structure Region where
  startCol : ℤ
  startRow : ℤ
  endCol : ℤ
  endRow : ℤ
deriving DecidableEq, Repr

/-- `selectCellsAndExtractText` bounds validation (GridScanner.ts lines
311-314): `actualStartCol = Math.max(0, Math.min(startCol, endCol))`,
`actualEndCol = Math.min(this.grid.cols - 1, Math.max(startCol, endCol))`,
and analogously for rows.  Caller corners may be negative or exceed the
grid, hence `ℤ`. -/
def normalizeRegion (grid : Grid) (startCol startRow endCol endRow : ℤ) : Region :=
  { startCol := max 0 (min startCol endCol)
    startRow := max 0 (min startRow endRow)
    endCol := min ((grid.cols : ℤ) - 1) (max startCol endCol)
    endRow := min ((grid.rows : ℤ) - 1) (max startRow endRow) }

/-- C6 counterexample: on a 3x2 grid, requesting the single out-of-range
column 5 (corners `(5,0)` to `(5,0)`) normalizes to `startCol = 5`,
`endCol = 2`: the region is not ordered (`start > end`) and `startCol`
lies outside the grid bounds `[0, cols-1] = [0, 2]`, contradicting the
claim that both ends are clamped into bounds with `start ≤ end` even for
out-of-range corners. -/
theorem normalizeRegion_counterexample :
    (normalizeRegion { cols := 3, rows := 2 } 5 0 5 0).startCol = 5 ∧
    (normalizeRegion { cols := 3, rows := 2 } 5 0 5 0).endCol = 2 ∧
    ¬ ((normalizeRegion { cols := 3, rows := 2 } 5 0 5 0).startCol ≤
        (normalizeRegion { cols := 3, rows := 2 } 5 0 5 0).endCol) ∧
    ¬ ((normalizeRegion { cols := 3, rows := 2 } 5 0 5 0).startCol ≤
        ((3 : ℤ) - 1)) := by
  refine ⟨?_, ?_, ?_, ?_⟩ <;> simp [normalizeRegion]

/-- C6 (amended): unconditionally — for every grid and any corners,
in range or not — swapping the two corners of
`selectCellsAndExtractText` yields exactly the same normalized region;
and the normalization yields an ordered region (`start ≤ end` per axis)
with both ends inside `[0, cols-1] x [0, rows-1]` provided the requested
range intersects the grid on each axis (`min ≤ cols-1` and `max ≥ 0`,
automatically true for any corners inside the grid, reversed or not). -/
theorem normalizeRegion_amended (grid : Grid) (sC sR eC eR : ℤ) :
    normalizeRegion grid sC sR eC eR = normalizeRegion grid eC eR sC sR ∧
    (1 ≤ grid.cols → 1 ≤ grid.rows →
      min sC eC ≤ (grid.cols : ℤ) - 1 → 0 ≤ max sC eC →
      min sR eR ≤ (grid.rows : ℤ) - 1 → 0 ≤ max sR eR →
      ((normalizeRegion grid sC sR eC eR).startCol ≤
          (normalizeRegion grid sC sR eC eR).endCol ∧
        (normalizeRegion grid sC sR eC eR).startRow ≤
          (normalizeRegion grid sC sR eC eR).endRow ∧
        0 ≤ (normalizeRegion grid sC sR eC eR).startCol ∧
        (normalizeRegion grid sC sR eC eR).startCol ≤ (grid.cols : ℤ) - 1 ∧
        0 ≤ (normalizeRegion grid sC sR eC eR).endCol ∧
        (normalizeRegion grid sC sR eC eR).endCol ≤ (grid.cols : ℤ) - 1 ∧
        0 ≤ (normalizeRegion grid sC sR eC eR).startRow ∧
        (normalizeRegion grid sC sR eC eR).startRow ≤ (grid.rows : ℤ) - 1 ∧
        0 ≤ (normalizeRegion grid sC sR eC eR).endRow ∧
        (normalizeRegion grid sC sR eC eR).endRow ≤ (grid.rows : ℤ) - 1)) := by
  constructor
  · simp only [normalizeRegion, Region.mk.injEq]
    omega
  · intro hcols hrows hc1 hc2 hr1 hr2
    simp only [normalizeRegion]
    omega

/-- C6 witness: on a 3x2 grid, reversed in-range corners `(2,1)`-`(0,0)`
satisfy the intersection proviso and normalize to an ordered in-bounds
region equal to the one of the swapped corners. -/
theorem normalizeRegion_amended_witness :
    normalizeRegion { cols := 3, rows := 2 } 2 1 0 0 =
      normalizeRegion { cols := 3, rows := 2 } 0 0 2 1 ∧
    ((1 : ℕ) ≤ 3 ∧ (1 : ℕ) ≤ 2 ∧
      min (2 : ℤ) 0 ≤ ((3 : ℕ) : ℤ) - 1 ∧ (0 : ℤ) ≤ max (2 : ℤ) 0 ∧
      min (1 : ℤ) 0 ≤ ((2 : ℕ) : ℤ) - 1 ∧ (0 : ℤ) ≤ max (1 : ℤ) 0) ∧
    ((normalizeRegion { cols := 3, rows := 2 } 2 1 0 0).startCol ≤
        (normalizeRegion { cols := 3, rows := 2 } 2 1 0 0).endCol ∧
      (normalizeRegion { cols := 3, rows := 2 } 2 1 0 0).startRow ≤
        (normalizeRegion { cols := 3, rows := 2 } 2 1 0 0).endRow ∧
      0 ≤ (normalizeRegion { cols := 3, rows := 2 } 2 1 0 0).startCol ∧
      (normalizeRegion { cols := 3, rows := 2 } 2 1 0 0).startCol ≤
        (((3 : ℕ) : ℤ)) - 1 ∧
      0 ≤ (normalizeRegion { cols := 3, rows := 2 } 2 1 0 0).endCol ∧
      (normalizeRegion { cols := 3, rows := 2 } 2 1 0 0).endCol ≤
        (((3 : ℕ) : ℤ)) - 1 ∧
      0 ≤ (normalizeRegion { cols := 3, rows := 2 } 2 1 0 0).startRow ∧
      (normalizeRegion { cols := 3, rows := 2 } 2 1 0 0).startRow ≤
        (((2 : ℕ) : ℤ)) - 1 ∧
      0 ≤ (normalizeRegion { cols := 3, rows := 2 } 2 1 0 0).endRow ∧
      (normalizeRegion { cols := 3, rows := 2 } 2 1 0 0).endRow ≤
        (((2 : ℕ) : ℤ)) - 1) :=
  ⟨(normalizeRegion_amended { cols := 3, rows := 2 } 2 1 0 0).1,
    ⟨by decide, by decide, by decide, by decide, by decide, by decide⟩,
    (normalizeRegion_amended { cols := 3, rows := 2 } 2 1 0 0).2
      (by decide) (by decide) (by decide) (by decide) (by decide) (by decide)⟩

/-- The sampling stride of `hasAnyTooltips` on one axis:
`Math.max(1, Math.floor(n / Math.sqrt(cap)))`.  For naturals,
`⌊n / √cap⌋ = Nat.sqrt (n * n / cap)` (proved in
`floor_div_real_sqrt` below), which gives an executable form. -/
def stepOf (n cap : ℕ) : ℕ := max 1 (Nat.sqrt (n * n / cap))

/-- The indices visited by `for (let i = 0; i < n; i += step)`. -/
def colIdxs (n step : ℕ) : List ℕ := List.range' 0 ((n + step - 1) / step) step

/-- Inner loop of the cell-selection pass: push `(c, row)` for each
column index, breaking as soon as the accumulated list reaches the cap. -/
def pushRowCells (cap row : ℕ) : List ℕ → List (ℕ × ℕ) → List (ℕ × ℕ)
  | [], acc => acc
  | c :: cs, acc =>
      let acc' := acc ++ [(c, row)]
      if cap ≤ acc'.length then acc' else pushRowCells cap row cs acc'

/-- Outer loop of the cell-selection pass over the row indices, breaking
as soon as the accumulated list reaches the cap. -/
def pushAllRows (cap : ℕ) (colList : List ℕ) : List ℕ → List (ℕ × ℕ) → List (ℕ × ℕ)
  | [], acc => acc
  | r :: rs, acc =>
      let acc' := pushRowCells cap r colList acc
      if cap ≤ acc'.length then acc' else pushAllRows cap colList rs acc'

/-- The `cellsToCheck` list of `hasAnyTooltips` (GridScanner.ts lines
209-219): strided row-major enumeration capped at `maxCellsToCheck`. -/
def cellsToCheck (grid : Grid) (cap : ℕ) : List (ℕ × ℕ) :=
  pushAllRows cap (colIdxs grid.cols (stepOf grid.cols cap))
    (colIdxs grid.rows (stepOf grid.rows cap)) []

/-- The source default for `maxCellsToCheck`:
`Math.min(20, cols * rows)`. -/
def defaultMaxCellsToCheck (grid : Grid) : ℕ := min 20 (grid.cols * grid.rows)

/-- Environment of one `hasAnyTooltips` call: per cell, whether any of
the awaited steps inside the per-cell `try` (baseline `sampleCell`,
`hoverCell`, `getVisibleTooltips`) throws — the `catch` treats all three
identically, continuing with the next cell — and otherwise the tooltip
list the detection returns. -/
structure QuickEnv where
  cellFails : ℕ → ℕ → Bool
  tooltips : ℕ → ℕ → List TooltipObs

/-- The result of `hasAnyTooltips`. -/
structure QuickResult where
  found : Bool
  firstTooltipAt : Option (ℕ × ℕ) := none
  tooltipText : Option String := none
deriving DecidableEq, Repr

/-- The check loop of `hasAnyTooltips` (GridScanner.ts lines 222-254)
with an explicit trace of the cells actually probed: a failing cell is
skipped, the first non-failing cell with a visible tooltip returns
immediately, and a fully exhausted list returns `found: false`. -/
def checkCells (env : QuickEnv) :
    List (ℕ × ℕ) → List (ℕ × ℕ) → QuickResult × List (ℕ × ℕ)
  | [], trace => ({ found := false }, trace)
  | cell :: rest, trace =>
      let trace' := trace ++ [cell]
      if env.cellFails cell.1 cell.2 then checkCells env rest trace'
      else
        match env.tooltips cell.1 cell.2 with
        | [] => checkCells env rest trace'
        | t :: _ =>
            ({ found := true, firstTooltipAt := some cell,
               tooltipText := orUndefined t.text }, trace')

/-- `GridScanner.hasAnyTooltips` with cap `maxCellsToCheck`; the second
component is the trace of probed cells. -/
def hasAnyTooltips (env : QuickEnv) (grid : Grid) (cap : ℕ) :
    QuickResult × List (ℕ × ℕ) :=
  checkCells env (cellsToCheck grid cap) []

/-- Helper: `Math.floor(c / Math.sqrt(k))` over the naturals equals
`Nat.sqrt (c * c / k)`. -/
theorem floor_div_real_sqrt (c k : ℕ) (hk : 0 < k) :
    ⌊(c : ℝ) / Real.sqrt (k : ℝ)⌋₊ = Nat.sqrt (c * c / k) := by
  have hkR : (0 : ℝ) < (k : ℝ) := by exact_mod_cast hk
  have hsk : (0 : ℝ) < Real.sqrt (k : ℝ) := Real.sqrt_pos.mpr hkR
  apply le_antisymm
  · rw [Nat.le_sqrt, Nat.le_div_iff_mul_le hk]
    set m := ⌊(c : ℝ) / Real.sqrt (k : ℝ)⌋₊ with hm
    have h1 : (m : ℝ) ≤ (c : ℝ) / Real.sqrt (k : ℝ) := Nat.floor_le (by positivity)
    have h2 : (m : ℝ) * Real.sqrt (k : ℝ) ≤ (c : ℝ) := (le_div_iff₀ hsk).mp h1
    have h3 : ((m : ℝ) * Real.sqrt (k : ℝ)) ^ 2 ≤ (c : ℝ) ^ 2 :=
      pow_le_pow_left₀ (by positivity) h2 2
    rw [mul_pow, Real.sq_sqrt hkR.le] at h3
    have h4 : ((m * m * k : ℕ) : ℝ) ≤ ((c * c : ℕ) : ℝ) := by
      push_cast
      nlinarith [h3]
    exact_mod_cast h4
  · apply Nat.le_floor
    rw [le_div_iff₀ hsk]
    set s := Nat.sqrt (c * c / k) with hs
    have h1 : s ^ 2 ≤ c * c / k := Nat.sqrt_le' _
    have h2 : s ^ 2 * k ≤ c * c := (Nat.le_div_iff_mul_le hk).mp h1
    have h2R : ((s : ℝ)) ^ 2 * (k : ℝ) ≤ (c : ℝ) * (c : ℝ) := by exact_mod_cast h2
    have h3 : ((s : ℝ) * Real.sqrt (k : ℝ)) ^ 2 ≤ (c : ℝ) ^ 2 := by
      rw [mul_pow, Real.sq_sqrt hkR.le]
      nlinarith [h2R]
    exact le_of_pow_le_pow_left₀ two_ne_zero (Nat.cast_nonneg c) h3

/-- Helper: the inner push loop never grows the accumulator past the cap
when entered below it. -/
theorem pushRowCells_length (cap row : ℕ) (cs : List ℕ) (acc : List (ℕ × ℕ))
    (h : acc.length < cap) : (pushRowCells cap row cs acc).length ≤ cap := by
  induction cs generalizing acc with
  | nil => exact Nat.le_of_lt h
  | cons c rest ih =>
      rw [pushRowCells]
      by_cases hc : cap ≤ (acc ++ [(c, row)]).length
      · simp only [hc, if_true]
        simp only [List.length_append, List.length_cons, List.length_nil] at *
        omega
      · simp only [hc, if_false]
        exact ih _ (by simp at hc ⊢; omega)

/-- Helper: the outer push loop never grows the accumulator past the cap
when entered below it. -/
theorem pushAllRows_length (cap : ℕ) (colList : List ℕ) (rs : List ℕ)
    (acc : List (ℕ × ℕ)) (h : acc.length < cap) :
    (pushAllRows cap colList rs acc).length ≤ cap := by
  induction rs generalizing acc with
  | nil => exact Nat.le_of_lt h
  | cons r rest ih =>
      rw [pushAllRows]
      by_cases hc : cap ≤ (pushRowCells cap r colList acc).length
      · simp only [hc, if_true]
        exact pushRowCells_length cap r colList acc h
      · simp only [hc, if_false]
        exact ih _ (by omega)

/-- Helper: `cellsToCheck` holds at most `cap` cells. -/
theorem cellsToCheck_length (grid : Grid) (cap : ℕ) (h : 1 ≤ cap) :
    (cellsToCheck grid cap).length ≤ cap :=
  pushAllRows_length cap _ _ [] (by simpa using h)

/-- Helper: the probe trace is no longer than the candidate list. -/
theorem checkCells_trace_length (env : QuickEnv) (l trace : List (ℕ × ℕ)) :
    (checkCells env l trace).2.length ≤ trace.length + l.length := by
  induction l generalizing trace with
  | nil => simp [checkCells]
  | cons cell rest ih =>
      rw [checkCells]
      by_cases hf : env.cellFails cell.1 cell.2
      · simp only [hf, if_true]
        have := ih (trace ++ [cell])
        simp at this ⊢
        omega
      · simp only [hf, if_false]
        cases hts : env.tooltips cell.1 cell.2 with
        | nil =>
            have := ih (trace ++ [cell])
            simp at this ⊢
            omega
        | cons t ts =>
            simp

/-- Helper: with no tooltip anywhere the loop always reports
`found: false`. -/
theorem checkCells_no_tooltips (env : QuickEnv)
    (h : ∀ c r, env.tooltips c r = []) (l trace : List (ℕ × ℕ)) :
    (checkCells env l trace).1 = { found := false } := by
  induction l generalizing trace with
  | nil => rfl
  | cons cell rest ih =>
      rw [checkCells]
      by_cases hf : env.cellFails cell.1 cell.2
      · simp only [hf, if_true]
        exact ih _
      · simp only [hf, if_false, h cell.1 cell.2]
        exact ih _

/-- Helper: with no per-cell failure the loop returns exactly at the
first candidate cell with a non-empty tooltip list. -/
theorem checkCells_no_failures (env : QuickEnv)
    (h : ∀ c r, env.cellFails c r = false) (l trace : List (ℕ × ℕ)) :
    (checkCells env l trace).1.firstTooltipAt =
      l.find? (fun p => !(env.tooltips p.1 p.2).isEmpty) ∧
    (checkCells env l trace).1.found =
      (l.find? (fun p => !(env.tooltips p.1 p.2).isEmpty)).isSome := by
  induction l generalizing trace with
  | nil => exact ⟨rfl, rfl⟩
  | cons cell rest ih =>
      rw [checkCells]
      simp only [h cell.1 cell.2, if_false, Bool.false_eq_true]
      cases hts : env.tooltips cell.1 cell.2 with
      | nil =>
          rw [List.find?_cons_of_neg _ (by simp [hts])]
          exact ih _
      | cons t ts =>
          rw [List.find?_cons_of_pos _ (by simp [hts])]
          exact ⟨rfl, rfl⟩

/-- C7: on any grid and any configured cap `≥ 1`, `hasAnyTooltips`
samples with strides `max(1, ⌊cols/√cap⌋)` and `max(1, ⌊rows/√cap⌋)`,
selects at most `cap` candidate cells and probes at most `cap` cells;
with no tooltip anywhere it returns `found = false`, and with no per-cell
failure it returns `found = true` exactly at the first candidate cell
whose tooltip list is non-empty, skipping all remaining cells. -/
theorem hasAnyTooltips_spec (env : QuickEnv) (grid : Grid) (cap : ℕ)
    (hcap : 1 ≤ cap) :
    (stepOf grid.cols cap = max 1 ⌊(grid.cols : ℝ) / Real.sqrt (cap : ℝ)⌋₊ ∧
      stepOf grid.rows cap = max 1 ⌊(grid.rows : ℝ) / Real.sqrt (cap : ℝ)⌋₊ ∧
      1 ≤ stepOf grid.cols cap ∧ 1 ≤ stepOf grid.rows cap) ∧
    (cellsToCheck grid cap).length ≤ cap ∧
    (hasAnyTooltips env grid cap).2.length ≤ cap ∧
    ((∀ c r, env.tooltips c r = []) →
      (hasAnyTooltips env grid cap).1 = { found := false }) ∧
    ((∀ c r, env.cellFails c r = false) →
      (hasAnyTooltips env grid cap).1.firstTooltipAt =
        (cellsToCheck grid cap).find? (fun p => !(env.tooltips p.1 p.2).isEmpty) ∧
      (hasAnyTooltips env grid cap).1.found =
        ((cellsToCheck grid cap).find? (fun p => !(env.tooltips p.1 p.2).isEmpty)).isSome) := by
  have hlen := cellsToCheck_length grid cap hcap
  refine ⟨⟨?_, ?_, le_max_left _ _, le_max_left _ _⟩, hlen, ?_, ?_, ?_⟩
  · rw [stepOf, floor_div_real_sqrt _ _ hcap]
  · rw [stepOf, floor_div_real_sqrt _ _ hcap]
  · have := checkCells_trace_length env (cellsToCheck grid cap) []
    simp only [List.length_nil, Nat.zero_add] at this
    exact le_trans this hlen
  · intro h
    exact checkCells_no_tooltips env h _ _
  · intro h
    exact checkCells_no_failures env h _ _

/-- A page with no tooltips and no failures, for the C7 witness. -/
def emptyQuickEnv : QuickEnv :=
  { cellFails := fun _ _ => false
    tooltips := fun _ _ => [] }

/-- C7 witness: the bounded-probe theorem applied to a 3x2 grid with cap
4 on a page with no tooltips. -/
theorem hasAnyTooltips_spec_witness :
    (1 ≤ 4) ∧
    ((stepOf 3 4 = max 1 ⌊((3 : ℕ) : ℝ) / Real.sqrt ((4 : ℕ) : ℝ)⌋₊ ∧
      stepOf 2 4 = max 1 ⌊((2 : ℕ) : ℝ) / Real.sqrt ((4 : ℕ) : ℝ)⌋₊ ∧
      1 ≤ stepOf 3 4 ∧ 1 ≤ stepOf 2 4) ∧
    (cellsToCheck { cols := 3, rows := 2 } 4).length ≤ 4 ∧
    (hasAnyTooltips emptyQuickEnv { cols := 3, rows := 2 } 4).2.length ≤ 4 ∧
    ((∀ c r, emptyQuickEnv.tooltips c r = []) →
      (hasAnyTooltips emptyQuickEnv { cols := 3, rows := 2 } 4).1 = { found := false }) ∧
    ((∀ c r, emptyQuickEnv.cellFails c r = false) →
      (hasAnyTooltips emptyQuickEnv { cols := 3, rows := 2 } 4).1.firstTooltipAt =
        (cellsToCheck { cols := 3, rows := 2 } 4).find?
          (fun p => !(emptyQuickEnv.tooltips p.1 p.2).isEmpty) ∧
      (hasAnyTooltips emptyQuickEnv { cols := 3, rows := 2 } 4).1.found =
        ((cellsToCheck { cols := 3, rows := 2 } 4).find?
          (fun p => !(emptyQuickEnv.tooltips p.1 p.2).isEmpty)).isSome)) :=
  ⟨by decide, hasAnyTooltips_spec emptyQuickEnv { cols := 3, rows := 2 } 4 (by decide)⟩

/-- The default candidate selector list shared by the tooltip-detection
entry points. -/
def defaultTooltipSelectors : List String :=
  ["[role=\"tooltip\"]", ".tooltip", ".hover-info", ".chart-tooltip",
   ".data-tooltip", "[data-tooltip]", ".tippy-content", ".d3-tip"]

/-- Environment of one `waitForTooltip` call: when (if ever) each
selector's element becomes visible after the wait starts, and the
text/markup/box read off it on success.  `locator(s).waitFor({state:
visible, timeout: b})` succeeds exactly when the element becomes visible
within the allotted budget `b`. -/
structure WaitEnv where
  appearAt : String → Option ℚ
  text : String → Option String
  html : String → String
  boundingBox : String → Option Rect

/-- Whether `waitFor` with budget `budget` succeeds for selector `s`. -/
def visibleWithin (env : WaitEnv) (budget : ℚ) (s : String) : Bool :=
  match env.appearAt s with
  | some t => decide (t ≤ budget)
  | none => false

/-- The timeout raised when no selector became visible; it carries the
overall timeout and every attempted selector, from which the source
formats `No tooltip found within {timeout}ms using selectors: {list}`. -/
structure TooltipTimeout where
  timeout : ℚ
  selectors : List String
deriving DecidableEq, Repr

/-- A successful `waitForTooltip` return: the matched selector with its
text content, markup and bounding box. -/
structure FoundTooltip where
  selector : String
  text : Option String
  html : String
  boundingBox : Option Rect
deriving DecidableEq, Repr

/-- The selector loop of `waitForTooltip`: try each selector in order
with the same per-selector budget, returning the first success. -/
def waitLoop (env : WaitEnv) (budget : ℚ) : List String → Option FoundTooltip
  | [] => none
  | s :: rest =>
      if visibleWithin env budget s then
        some { selector := s, text := orUndefined (env.text s),
               html := env.html s, boundingBox := env.boundingBox s }
      else waitLoop env budget rest

/-- `TooltipDetector.waitForTooltip` (part_002 lines 133-174): each
selector is awaited with budget `timeout / tooltipSelectors.length`; if
none becomes visible the call throws the timeout error naming the overall
timeout and the attempted selectors. -/
def waitForTooltip (env : WaitEnv) (timeout : ℚ := 3000)
    (selectors : List String := defaultTooltipSelectors) :
    Except TooltipTimeout FoundTooltip :=
  match waitLoop env (timeout / (selectors.length : ℚ)) selectors with
  | some f => .ok f
  | none => .error { timeout := timeout, selectors := selectors }

/-- Helper: the wait loop returns the first selector passing the
per-budget visibility test. -/
theorem waitLoop_eq_find (env : WaitEnv) (budget : ℚ) (l : List String) :
    waitLoop env budget l =
      (l.find? (visibleWithin env budget)).map
        (fun s => { selector := s, text := orUndefined (env.text s),
                    html := env.html s, boundingBox := env.boundingBox s }) := by
  induction l with
  | nil => rfl
  | cons s rest ih =>
      rw [waitLoop]
      by_cases hs : visibleWithin env budget s
      · rw [List.find?_cons_of_pos _ hs]
        simp [hs]
      · rw [List.find?_cons_of_neg _ (by simpa using hs)]
        simp only [hs, if_false, Bool.false_eq_true]
        exact ih

/-- C9: `waitForTooltip` divides the overall timeout equally across the
ordered candidate selectors (`timeout / selectors.length` each), returns
the first selector that becomes visible within that share together with
its text, markup and bounding box, and when no selector becomes visible
raises the timeout error carrying the overall timeout and every attempted
selector. -/
theorem waitForTooltip_spec (env : WaitEnv) (timeout : ℚ) (selectors : List String) :
    waitForTooltip env timeout selectors =
      (match selectors.find?
          (visibleWithin env (timeout / (selectors.length : ℚ))) with
        | some s => .ok { selector := s, text := orUndefined (env.text s),
                          html := env.html s, boundingBox := env.boundingBox s }
        | none => .error { timeout := timeout, selectors := selectors }) := by
  rw [waitForTooltip, waitLoop_eq_find]
  cases selectors.find? (visibleWithin env (timeout / (selectors.length : ℚ))) with
  | none => rfl
  | some s => rfl

end CanvasGrid
